import Mathlib

/-!
Verification of the Paint/Email MCP agent repository.

The development shallowly embeds the two source files:

* `paint_tools.py` — the `PaintTools` class (GUI side effects are abstracted
  to effect tokens; the arithmetic transform `calculate_ascii_exp_sum` is
  modelled over the reals, with the `math.exp` overflow error path — the
  `OverflowError` caught by its `except` handler — made explicit), and

* `autonomous_paint_agent.py` — the plan-execute loop of `main`: splitting a
  planner response into lines, classifying `FUNCTION_CALL:` / `FINAL_ANSWER:`
  lines, JSON parsing (parameterised), dispatch against the tool registry,
  the global `iteration` counter bounded by `max_iterations`, and the
  exception handling that breaks the loop on a round-level error.

Python string operations used by the code (`str.strip`, `str.split`,
`str.startswith`) are re-implemented structurally over `List Char` so that
all loop-model definitions evaluate by kernel reduction.
-/

/-! ## Python string primitives -/

/-- Whitespace characters removed by Python `str.strip()` (ASCII range). -/
def pySpace (c : Char) : Bool :=
  c == ' ' || c == '\t' || c == '\n' || c == '\r' || c == '\x0b' || c == '\x0c'

/-- Strip leading and trailing whitespace from a character list. -/
def pyStripList (l : List Char) : List Char :=
  ((l.dropWhile pySpace).reverse.dropWhile pySpace).reverse

/-- Model of Python `s.strip()`. -/
def pyStrip (s : String) : String :=
  ⟨pyStripList s.data⟩

/-- Split a character list at each newline, keeping empty pieces. -/
def splitLinesList : List Char → List (List Char)
  | [] => [[]]
  | c :: cs =>
    if c = '\n' then [] :: splitLinesList cs
    else
      match splitLinesList cs with
      | [] => [[c]]
      | l :: ls => (c :: l) :: ls

/-- Model of Python `s.split("\n")`. -/
def splitLines (s : String) : List String :=
  (splitLinesList s.data).map (fun l => ⟨l⟩)

/-- Structural prefix test on character lists. -/
def isPrefixList : List Char → List Char → Bool
  | [], _ => true
  | _ :: _, [] => false
  | p :: ps, c :: cs => p == c && isPrefixList ps cs

/-- Model of Python `s.startswith(pre)`. -/
def pyStartsWith (s pre : String) : Bool :=
  isPrefixList pre.data s.data

/-- Drop everything up to and including the first colon.
Models `s.split(":", 1)[1]` for a string that contains a colon. -/
def afterColonList : List Char → List Char
  | [] => []
  | c :: cs => if c = ':' then cs else afterColonList cs

/-- Model of `line.split(":", 1)[1]` (the part after the first colon). -/
def afterFirstColon (s : String) : String :=
  ⟨afterColonList s.data⟩

/-! ## PaintTools (`paint_tools.py`, class `PaintTools`)

The object state of a `PaintTools` instance: `self.paint_app` (here a
`Bool`: `false` models `None`, `true` models a live application handle),
`self.simulation_mode`, and `self.last_rect` (set by `draw_rectangle`).
-/

structure PaintState where
  paintApp : Bool
  simulationMode : Bool
  lastRect : Option (Int × Int × Int × Int)
deriving DecidableEq

/-- Abstract tokens for the GUI side effects a real-mode tool performs.
The pixel-level mouse/keyboard choreography of `paint_tools.py` is external
(pywinauto / win32api) and is abstracted to one token per operation. -/
inductive GuiEffect where
  | openPaint
  | drawRect (x1 y1 x2 y2 : Int)
  | addText (text : String)
  | saveFile (filename : String)
deriving DecidableEq

/-- Failure text returned by the real-mode tools when `self.paint_app` is
`None` (lines 149-151, 234-236, 285-287 of `paint_tools.py`). -/
def notOpenMsg : String :=
  "Paint is not open. Please call open_paint first."

namespace PaintTools

/-- `PaintTools.open_paint` (lines 107-139): simulation returns a simulated
message; real mode starts Paint, stores the handle, and maximizes. -/
def open_paint (st : PaintState) : PaintState × List GuiEffect × String :=
  if st.simulationMode then
    (st, [], "SIMULATION: Paint opened successfully")
  else
    ({ st with paintApp := true }, [GuiEffect.openPaint],
      "Paint opened successfully and maximized")

/-- `PaintTools.draw_rectangle` (lines 141-225): simulation first; then the
`if not self.paint_app` guard; real mode performs the GUI drag (one effect
token), stores `self.last_rect`, and reports success. -/
def draw_rectangle (st : PaintState) (x1 y1 x2 y2 : Int) :
    PaintState × List GuiEffect × String :=
  if st.simulationMode then
    (st, [], "SIMULATION: Rectangle drawn from (" ++ toString x1 ++ "," ++
      toString y1 ++ ") to (" ++ toString x2 ++ "," ++ toString y2 ++ ")")
  else if !st.paintApp then
    (st, [], notOpenMsg)
  else
    ({ st with lastRect := some (x1, y1, x2, y2) },
      [GuiEffect.drawRect x1 y1 x2 y2],
      "Rectangle drawn from (" ++ toString x1 ++ "," ++ toString y1 ++
        ") to (" ++ toString x2 ++ "," ++ toString y2 ++ ")")

/-- `PaintTools.save_paint` (lines 227-275): simulation first; then the
`if not self.paint_app` guard; real mode drives the save dialog. -/
def save_paint (st : PaintState) (filename : String) :
    PaintState × List GuiEffect × String :=
  if st.simulationMode then
    (st, [], "SIMULATION: File saved as " ++ filename)
  else if !st.paintApp then
    (st, [], notOpenMsg)
  else
    (st, [GuiEffect.saveFile filename],
      "File saved to Assignment directory as: " ++ filename)

/-- `PaintTools.add_text_in_paint` (lines 277-391): simulation first; then
the `if not self.paint_app` guard; real mode performs the text choreography. -/
def add_text_in_paint (st : PaintState) (text : String) :
    PaintState × List GuiEffect × String :=
  if st.simulationMode then
    (st, [], "SIMULATION: Text \x27" ++ text ++ "\x27 added to Paint")
  else if !st.paintApp then
    (st, [], notOpenMsg)
  else
    (st, [GuiEffect.addText text],
      "Text \x27" ++ text ++ "\x27 added to Paint")

end PaintTools

/-- Result of `PaintTools.calculate_ascii_exp_sum`: the empty-input
sentinel (`"Input string is empty"`, line 397), the error string built by
the `except` handler (lines 417-421), or the computed total and the
per-character breakdown `(char, code, e^code)` (lines 402-414). -/
inductive TransformResult where
  | emptyInput
  | error (msg : String)
  | success (total : ℝ) (details : List (Char × ℕ × ℝ))

/-- The smallest integer code point on which `math.exp` overflows double
precision and raises `OverflowError`: `exp(709) < DBL_MAX < exp(710)`
(the threshold is 709.78...). -/
def expOverflowThreshold : ℕ := 710

/-- Whether some character's code point makes `math.exp(ord(c))` raise
`OverflowError` during the comprehension at line 403. -/
def hasOverflowCode (s : String) : Bool :=
  s.data.any (fun c => expOverflowThreshold ≤ c.toNat)

/-- The error string returned by the `except` handler (line 418) for the
`OverflowError` raised by `math.exp`: `f"Error calculating ASCII
exponential sum: {str(e)}"` with `str(e) = "math range error"`. -/
def overflowErrorMsg : String :=
  "Error calculating ASCII exponential sum: math range error"

namespace PaintTools

/-- `PaintTools.calculate_ascii_exp_sum` (lines 393-421): for empty input
return the sentinel; if any code point reaches the `math.exp` overflow
threshold, the comprehension at line 403 raises `OverflowError` and the
`except` handler (lines 417-421) returns the error string; otherwise map
each character to its code point (`ord`), exponentiate (`math.exp`,
idealized here as the real exponential), sum, and report the per-character
breakdown. The method reads no object state and mutates none. -/
noncomputable def calculate_ascii_exp_sum (st : PaintState)
    (input_string : String) : PaintState × TransformResult :=
  if input_string = "" then
    (st, TransformResult.emptyInput)
  else if hasOverflowCode input_string then
    (st, TransformResult.error overflowErrorMsg)
  else
    let asciiValues := input_string.data.map Char.toNat
    let expValues := asciiValues.map (fun (v : ℕ) => Real.exp (v : ℝ))
    let totalSum := expValues.sum
    let details := input_string.data.map
      (fun c => (c, c.toNat, Real.exp (c.toNat : ℝ)))
    (st, TransformResult.success totalSum details)

end PaintTools

/-! ## The plan-execute loop (`autonomous_paint_agent.py`, `main`)

The loop at lines 299-385 splits each planner response into lines,
dispatches `FUNCTION_CALL:` lines against the tool registry, returns at a
`FINAL_ANSWER:` line, and breaks on a round-level exception.  The JSON
parser (`json.loads` plus extraction of the `name` / `args` keys, lines
329-333) is a parameter of the model: `none` models a
`json.JSONDecodeError`.
-/

/-- A JSON scalar argument value (the planner emits strings and numbers). -/
inductive JsonVal where
  | str (v : String)
  | num (v : Int)
deriving DecidableEq

/-- A decoded `FUNCTION_CALL` payload: `function_info_json["name"]` and
`function_info_json["args"]`. -/
structure FunctionInfo where
  name : String
  args : List (String × JsonVal)
deriving DecidableEq

/-- Result of `session.call_tool`: a result text, or a raised exception
(caught at lines 360-362 and recorded as a failure). -/
inductive ToolCallResult where
  | ok (text : String)
  | error (msg : String)
deriving DecidableEq

/-- Environment of the loop: the registered tool names (`tool_names`, line
192), the JSON payload parser, and the external tool server (indexed by the
number of calls made so far, so results may vary between calls). -/
structure AgentEnv where
  toolNames : List String
  jsonParse : String → Option FunctionInfo
  callTool : ℕ → FunctionInfo → ToolCallResult

/-- Outcome stored in one history entry: `{func_name} returned: {text}`
(line 354) or `{func_name} failed: {msg}` (line 362). -/
inductive RecordOutcome where
  | returned (text : String)
  | failed (msg : String)
deriving DecidableEq

/-- One entry of `iteration_response` (the history): the round index
(0-based; the printed text uses `iteration + 1`), the tool name, and the
outcome. -/
structure ExecutionRecord where
  round : ℕ
  name : String
  outcome : RecordOutcome
deriving DecidableEq

/-- Mutable state of `main` while the loop runs: the global `iteration`
counter, the number of tool calls attempted so far, the append-only
`iteration_response` history, the trace of dispatched invocations, and the
Python local `function_info_json` (which retains its last value across
lines and rounds). -/
structure AgentState where
  iteration : ℕ
  callCount : ℕ
  history : List ExecutionRecord
  executed : List FunctionInfo
  lastParsed : Option FunctionInfo
deriving DecidableEq

/-- Result of processing one line (or a whole response body):
the `for` loop continues, `return` was executed at a `FINAL_ANSWER:` line,
or an uncaught exception was raised (the `NameError` on
`function_info_json` when the first `FUNCTION_CALL` payload is malformed). -/
inductive LineOutcome where
  | continued (st : AgentState)
  | finalAnswer (line : String) (st : AgentState)
  | raised (st : AgentState)
deriving DecidableEq

/-- The state carried by a `LineOutcome`. -/
def LineOutcome.state : LineOutcome → AgentState
  | .continued st => st
  | .finalAnswer _ st => st
  | .raised st => st

/-- Dispatch a decoded invocation (lines 338-362): names not in
`tool_names` are silently skipped (the `if` has no `else`); registered
names are called, and both a result and a raised exception append exactly
one history record. -/
def runCall (env : AgentEnv) (st : AgentState) (fi : FunctionInfo) :
    LineOutcome :=
  if fi.name ∈ env.toolNames then
    match env.callTool st.callCount fi with
    | ToolCallResult.ok txt =>
      LineOutcome.continued { st with
        callCount := st.callCount + 1
        history := st.history ++ [⟨st.iteration, fi.name, RecordOutcome.returned txt⟩]
        executed := st.executed ++ [fi] }
    | ToolCallResult.error msg =>
      LineOutcome.continued { st with
        callCount := st.callCount + 1
        history := st.history ++ [⟨st.iteration, fi.name, RecordOutcome.failed msg⟩]
        executed := st.executed ++ [fi] }
  else
    LineOutcome.continued st

/-- Process one line of the planner response (lines 313-367): strip, skip
empty and narrative lines, decode and dispatch `FUNCTION_CALL:` lines
(reusing the stale `function_info_json` when decoding fails and a previous
line had decoded, raising `NameError` when none had), and return at a
`FINAL_ANSWER:` line. -/
def processLine (env : AgentEnv) (st : AgentState) (rawLine : String) :
    LineOutcome :=
  let line := pyStrip rawLine
  if line = "" then LineOutcome.continued st
  else if pyStartsWith line "FUNCTION_CALL:" then
    match env.jsonParse (afterFirstColon line) with
    | some fi => runCall env { st with lastParsed := some fi } fi
    | none =>
      match st.lastParsed with
      | none => LineOutcome.raised st
      | some fi => runCall env st fi
  else if pyStartsWith line "FINAL_ANSWER:" then
    LineOutcome.finalAnswer line st
  else
    LineOutcome.continued st

/-- The `for line in lines` loop (line 313): process lines in document
order until one returns or raises. -/
def processLines (env : AgentEnv) (st : AgentState) :
    List String → LineOutcome
  | [] => LineOutcome.continued st
  | l :: ls =>
    match processLine env st l with
    | LineOutcome.continued st' => processLines env st' ls
    | other => other

/-- One planner call per round: the response text, or a raised exception
(e.g. the `asyncio.TimeoutError` re-raised by `generate_with_timeout`). -/
inductive PlannerResponse where
  | text (s : String)
  | failure (err : String)
deriving DecidableEq

/-- How the loop ended: `return` at a `FINAL_ANSWER:` line (line 367), a
round-level exception caught at line 377 followed by `break` (line 379), or
the `while` condition turning false (`iteration >= max_iterations`,
line 383). -/
inductive LoopResult where
  | finalAnswer (line : String)
  | roundError (err : String)
  | maxIterations
deriving DecidableEq

/-- Observable outcome of a whole run of the loop. -/
structure LoopTrace where
  result : LoopResult
  history : List ExecutionRecord
  executed : List FunctionInfo
  roundIndices : List ℕ
  finalIteration : ℕ
deriving DecidableEq

/-- `max_iterations = 10` (line 44). -/
def maxIterations : ℕ := 10

/-- Exception message of the model for the `NameError` raised at line 333
when `function_info_json` was never assigned. -/
def nameErrorMsg : String :=
  "NameError: function_info_json is not defined"

/-- The `while iteration < max_iterations` loop (lines 299-385), with the
fuel `maxIterations - iteration` made explicit (it starts at
`maxIterations` and decreases by one exactly when `iteration` increases by
one, so fuel 0 is the `iteration >= max_iterations` exit). -/
def runLoopAux (env : AgentEnv) (responses : ℕ → PlannerResponse) :
    ℕ → AgentState → List ℕ → LoopTrace
  | 0, st, rounds =>
    ⟨LoopResult.maxIterations, st.history, st.executed, rounds, st.iteration⟩
  | fuel + 1, st, rounds =>
    let rounds' := rounds ++ [st.iteration]
    match responses st.iteration with
    | PlannerResponse.failure e =>
      ⟨LoopResult.roundError e, st.history, st.executed, rounds', st.iteration⟩
    | PlannerResponse.text s =>
      match processLines env st (splitLines (pyStrip s)) with
      | LineOutcome.raised st' =>
        ⟨LoopResult.roundError nameErrorMsg, st'.history, st'.executed,
          rounds', st'.iteration⟩
      | LineOutcome.finalAnswer line st' =>
        ⟨LoopResult.finalAnswer line, st'.history, st'.executed,
          rounds', st'.iteration⟩
      | LineOutcome.continued st' =>
        runLoopAux env responses fuel
          { st' with iteration := st'.iteration + 1 } rounds'

/-- Run the loop from the initial state (`iteration = 0`,
`iteration_response = []`, line 45-46). -/
def runLoop (env : AgentEnv) (responses : ℕ → PlannerResponse) : LoopTrace :=
  runLoopAux env responses maxIterations ⟨0, 0, [], [], none⟩ []

/-- Process exit code as a function of how the loop ended (`__main__`,
lines 400-408): `sys.exit(1)` fires only for exceptions escaping
`asyncio.run(main())`, but every loop ending is handled inside `main`
(the round-level `except` breaks, line 379; the connection-level handlers
return, lines 387-393), so `main` always returns normally and the process
exits 0. -/
def processExitCode : LoopResult → ℕ
  | _ => 0

/-- The tool names registered on the MCP server (`@mcp.tool()` functions of
`paint_tools.py`), as returned by `session.list_tools()` (line 192). -/
def paintToolNames : List String :=
  ["open_paint", "draw_rectangle", "add_text_in_paint", "save_paint_file",
    "ascii_exp_sum", "send_email_with_attachment", "check_file_exists"]

/-! ## Spec-side line classification (for claim C1) -/

/-- A line whose stripped form starts with `FUNCTION_CALL:` (an invocation
line of the planner protocol). -/
def isCallLine (l : String) : Bool :=
  pyStartsWith (pyStrip l) "FUNCTION_CALL:"

/-- A line whose stripped form starts with `FINAL_ANSWER:` (a termination
line of the planner protocol). -/
def isTermLine (l : String) : Bool :=
  pyStartsWith (pyStrip l) "FINAL_ANSWER:"

/-- The invocation a single line causes to be dispatched, if any: a
`FUNCTION_CALL:` line whose payload decodes to a registered tool name. -/
def dispatchLine (env : AgentEnv) (l : String) : Option FunctionInfo :=
  if isCallLine l then
    match env.jsonParse (afterFirstColon (pyStrip l)) with
    | some fi => if fi.name ∈ env.toolNames then some fi else none
    | none => none
  else
    none

/-- The invocations a list of lines causes to be dispatched, in document
order. -/
def dispatchedCalls (env : AgentEnv) (ls : List String) : List FunctionInfo :=
  ls.filterMap (dispatchLine env)

/-- The termination message carried by a `FINAL_ANSWER:` line (the part
after the colon, stripped). -/
def finalMessage (line : String) : String :=
  pyStrip (afterFirstColon line)

/-! ## Concrete scenario data

Instantiations of the environment for the end-to-end scenarios of the
specification: a JSON parser that decodes the specific payloads the
scenarios use (everything else is a decode failure), and planner responses
as functions from round index to response.
-/

/-- The initial `main` state: `iteration = 0`, no calls, empty history,
`function_info_json` unassigned. -/
def initAgentState : AgentState := ⟨0, 0, [], [], none⟩

/-- The JSON payload of end-to-end scenario 2 (the part of the
`FUNCTION_CALL` line after the colon). -/
def rectPayload : String :=
  " \x7b\"name\": \"draw_rectangle\", \"args\": \x7b\"x1\": 600, \"y1\": 354, \"x2\": 1000, \"y2\": 454\x7d\x7d"

/-- The decoded invocation of end-to-end scenario 2. -/
def rectFi : FunctionInfo :=
  ⟨"draw_rectangle",
    [("x1", JsonVal.num 600), ("y1", JsonVal.num 354),
      ("x2", JsonVal.num 1000), ("y2", JsonVal.num 454)]⟩

/-- A JSON parser that decodes exactly the scenario-2 payload. -/
def rectJsonParse : String → Option FunctionInfo :=
  fun s => if s = rectPayload then some rectFi else none

/-- Environment for scenario 2: the repository tool registry, the
scenario JSON parser, and a tool server whose `draw_rectangle` succeeds. -/
def envRect : AgentEnv :=
  ⟨paintToolNames, rectJsonParse,
    fun _ _ => ToolCallResult.ok "Rectangle drawn from (600,354) to (1000,454)"⟩

/-- The scenario-2 invocation line. -/
def rectCallLine : String := "FUNCTION_CALL:" ++ rectPayload

/-- The scenario-2 response text: one invocation line then one
termination line. -/
def scenario2Text : String :=
  rectCallLine ++ "\nFINAL_ANSWER: done"

/-- A planner that answers scenario 2 every round. -/
def respScenario2 : ℕ → PlannerResponse :=
  fun _ => PlannerResponse.text scenario2Text

/-- The scenario-2 response with the two lines in the opposite order:
termination line first, then the invocation line. -/
def termFirstText : String :=
  "FINAL_ANSWER: done\nFUNCTION_CALL:" ++ rectPayload

/-- A planner that answers `termFirstText` every round. -/
def respTermFirst : ℕ → PlannerResponse :=
  fun _ => PlannerResponse.text termFirstText

/-- An environment whose JSON parser rejects every payload (every
`FUNCTION_CALL` payload raises `json.JSONDecodeError`). -/
def envNoParse : AgentEnv :=
  ⟨paintToolNames, fun _ => none, fun _ _ => ToolCallResult.ok ""⟩

/-- A response whose only `FUNCTION_CALL` line carries a malformed JSON
payload. -/
def malformedText : String :=
  "FUNCTION_CALL: \x7bbad json"

/-- A planner that answers the malformed line every round. -/
def respMalformed : ℕ → PlannerResponse :=
  fun _ => PlannerResponse.text malformedText

/-- A well-formed call followed by a malformed one: the stale
`function_info_json` makes the second line re-dispatch the first call. -/
def staleText : String :=
  "FUNCTION_CALL:" ++ rectPayload ++ "\nFUNCTION_CALL: \x7bbad json"

/-- The JSON payload of an invocation whose tool name is not registered. -/
def unknownPayload : String :=
  " \x7b\"name\": \"not_a_tool\", \"args\": \x7b\x7d\x7d"

/-- The decoded unregistered invocation. -/
def unknownFi : FunctionInfo := ⟨"not_a_tool", []⟩

/-- Environment whose parser decodes exactly the unregistered-tool
payload. -/
def envUnknown : AgentEnv :=
  ⟨paintToolNames,
    (fun s => if s = unknownPayload then some unknownFi else none),
    fun _ _ => ToolCallResult.ok ""⟩

/-- The unregistered-tool invocation line. -/
def unknownCallText : String :=
  "FUNCTION_CALL:" ++ unknownPayload

/-- A planner that emits the unregistered-tool invocation every round. -/
def respUnknown : ℕ → PlannerResponse :=
  fun _ => PlannerResponse.text unknownCallText

/-- A planner whose call times out on every round (scenario 3 needs only
round 1). -/
def respTimeout : ℕ → PlannerResponse :=
  fun _ => PlannerResponse.failure "Request timed out"

/-! ## Helper lemmas -/

/-- Dispatch never changes the `iteration` counter. -/
lemma runCall_iteration (env : AgentEnv) (st : AgentState) (fi : FunctionInfo) :
    (runCall env st fi).state.iteration = st.iteration := by
  unfold runCall
  split
  · split <;> rfl
  · rfl

/-- Processing one line never changes the `iteration` counter. -/
lemma processLine_iteration (env : AgentEnv) (st : AgentState) (l : String) :
    (processLine env st l).state.iteration = st.iteration := by
  simp only [processLine]
  split
  · rfl
  · split
    · split
      · exact runCall_iteration env _ _
      · split
        · rfl
        · exact runCall_iteration env _ _
    · split
      · rfl
      · rfl

/-- Processing a response body never changes the `iteration` counter. -/
lemma processLines_iteration (env : AgentEnv) :
    ∀ (ls : List String) (st : AgentState),
      (processLines env st ls).state.iteration = st.iteration := by
  intro ls
  induction ls with
  | nil => intro st; rfl
  | cons l ls ih =>
    intro st
    simp only [processLines]
    cases h : processLine env st l with
    | continued st' =>
      have := processLine_iteration env st l
      rw [h] at this
      simp only [LineOutcome.state] at this
      rw [← this]
      exact ih st'
    | finalAnswer line st' =>
      have := processLine_iteration env st l
      rw [h] at this
      exact this
    | raised st' =>
      have := processLine_iteration env st l
      rw [h] at this
      exact this

/-- Unfolding step of `List.range'`. -/
lemma range'_cons (a n : ℕ) : List.range' a (n + 1) = a :: List.range' (a + 1) n := rfl

/-- Structure of a run of the `while` loop started with fuel `fuel`: some
`k ≤ fuel` rounds complete, the final `iteration` is the initial one plus
`k`, the started rounds carry consecutive indices, and the run ends in
`maxIterations` exactly when the fuel is used up (`k = fuel`); otherwise
one further round started (index `iteration + k`) and ended the loop. -/
lemma runLoopAux_spec (env : AgentEnv) (responses : ℕ → PlannerResponse) :
    ∀ (fuel : ℕ) (st : AgentState) (rounds : List ℕ),
      ∃ k : ℕ,
        (runLoopAux env responses fuel st rounds).finalIteration = st.iteration + k ∧
        (((runLoopAux env responses fuel st rounds).result = LoopResult.maxIterations ∧
            k = fuel ∧
            (runLoopAux env responses fuel st rounds).roundIndices =
              rounds ++ List.range' st.iteration k) ∨
          ((runLoopAux env responses fuel st rounds).result ≠ LoopResult.maxIterations ∧
            k < fuel ∧
            (runLoopAux env responses fuel st rounds).roundIndices =
              rounds ++ List.range' st.iteration (k + 1))) := by
  intro fuel
  induction fuel with
  | zero =>
    intro st rounds
    exact ⟨0, by simp [runLoopAux, List.range']⟩
  | succ fuel ih =>
    intro st rounds
    cases hr : responses st.iteration with
    | failure e =>
      refine ⟨0, ?_, Or.inr ⟨?_, Nat.succ_pos fuel, ?_⟩⟩ <;>
        simp [runLoopAux, hr, range'_cons, List.range']
    | text s =>
      have hit := processLines_iteration env (splitLines (pyStrip s)) st
      cases hp : processLines env st (splitLines (pyStrip s)) with
      | raised st' =>
        rw [hp] at hit
        simp only [LineOutcome.state] at hit
        refine ⟨0, ?_, Or.inr ⟨?_, Nat.succ_pos fuel, ?_⟩⟩ <;>
          simp [runLoopAux, hr, hp, hit, range'_cons, List.range']
      | finalAnswer line st' =>
        rw [hp] at hit
        simp only [LineOutcome.state] at hit
        refine ⟨0, ?_, Or.inr ⟨?_, Nat.succ_pos fuel, ?_⟩⟩ <;>
          simp [runLoopAux, hr, hp, hit, range'_cons, List.range']
      | continued st' =>
        rw [hp] at hit
        simp only [LineOutcome.state] at hit
        obtain ⟨k, hfin, hcase⟩ :=
          ih { st' with iteration := st'.iteration + 1 } (rounds ++ [st.iteration])
        refine ⟨k + 1, ?_, ?_⟩
        · simp only [runLoopAux, hr, hp]
          rw [hfin]
          simp [hit]
          omega
        · simp only [runLoopAux, hr, hp]
          rcases hcase with ⟨h1, h2, h3⟩ | ⟨h1, h2, h3⟩
          · refine Or.inl ⟨h1, by omega, ?_⟩
            rw [h3]
            simp only [hit, range'_cons]
            subst h2
            rw [List.append_assoc]
            rfl
          · refine Or.inr ⟨h1, by omega, ?_⟩
            rw [h3]
            simp only [hit, range'_cons]
            rw [List.append_assoc]
            rfl

/-- The protocol markers `FINAL_ANSWER:` and `FUNCTION_CALL:` cannot both
be prefixes of the same line. -/
lemma term_prefixes_disjoint (l : List Char) :
    isPrefixList ("FINAL_ANSWER:".data) l = true →
    isPrefixList ("FUNCTION_CALL:".data) l = false := by
  have e1 : ("FINAL_ANSWER:".data) = 'F' :: 'I' :: "NAL_ANSWER:".data := rfl
  have e2 : ("FUNCTION_CALL:".data) = 'F' :: 'U' :: "NCTION_CALL:".data := rfl
  rw [e1, e2]
  intro h
  cases l with
  | nil => simp [isPrefixList] at h
  | cons c1 t =>
    cases t with
    | nil => simp [isPrefixList] at h
    | cons c2 t2 =>
      simp only [isPrefixList, Bool.and_eq_true, beq_iff_eq] at h
      obtain ⟨h1, h2, _⟩ := h
      subst h1
      subst h2
      simp [isPrefixList]

/-- A termination line does not strip to the empty string. -/
lemma termLine_not_empty (t : String) (ht : isTermLine t = true) :
    ¬ (pyStrip t = "") := by
  intro hemp
  rw [isTermLine, hemp] at ht
  exact absurd ht (by decide)

/-- A termination line is not an invocation line. -/
lemma termLine_not_call (t : String) (ht : isTermLine t = true) :
    pyStartsWith (pyStrip t) "FUNCTION_CALL:" = false := by
  rw [isTermLine] at ht
  exact term_prefixes_disjoint (pyStrip t).data ht

/-- Processing one non-termination line whose payload (if it is an
invocation line) decodes: the `for` loop continues and the executed-call
trace grows by exactly the calls the line dispatches. -/
lemma processLine_nonterm (env : AgentEnv) (st : AgentState) (l : String)
    (hterm : isTermLine l = false)
    (hparse : isCallLine l = true →
      (env.jsonParse (afterFirstColon (pyStrip l))).isSome = true) :
    ∃ st', processLine env st l = LineOutcome.continued st' ∧
      st'.executed = st.executed ++ (dispatchLine env l).toList := by
  by_cases h0 : pyStrip l = ""
  · refine ⟨st, ?_, ?_⟩
    · simp [processLine, h0]
    · have : isCallLine l = false := by
        rw [isCallLine, h0]
        decide
      simp [dispatchLine, this]
  · by_cases hc : pyStartsWith (pyStrip l) "FUNCTION_CALL:"
    · have hcall : isCallLine l = true := hc
      obtain ⟨fi, hfi⟩ := Option.isSome_iff_exists.mp (hparse hcall)
      by_cases hreg : fi.name ∈ env.toolNames
      · cases htc : env.callTool st.callCount fi with
        | ok txt =>
          refine ⟨⟨st.iteration, st.callCount + 1,
            st.history ++ [⟨st.iteration, fi.name, RecordOutcome.returned txt⟩],
            st.executed ++ [fi], some fi⟩, ?_, ?_⟩
          · simp [processLine, h0, hc, hfi, runCall, hreg, htc]
          · simp [dispatchLine, hcall, hfi, hreg]
        | error msg =>
          refine ⟨⟨st.iteration, st.callCount + 1,
            st.history ++ [⟨st.iteration, fi.name, RecordOutcome.failed msg⟩],
            st.executed ++ [fi], some fi⟩, ?_, ?_⟩
          · simp [processLine, h0, hc, hfi, runCall, hreg, htc]
          · simp [dispatchLine, hcall, hfi, hreg]
      · refine ⟨⟨st.iteration, st.callCount, st.history, st.executed, some fi⟩, ?_, ?_⟩
        · simp [processLine, h0, hc, hfi, runCall, hreg]
        · simp [dispatchLine, hcall, hfi, hreg]
    · have hfa : pyStartsWith (pyStrip l) "FINAL_ANSWER:" = false := hterm
      refine ⟨st, ?_, ?_⟩
      · simp [processLine, h0, hc, hfa]
      · have : isCallLine l = false := by
          rw [isCallLine]
          exact eq_false_of_ne_true hc
        simp [dispatchLine, this]

/-- Processing a termination line executes the `return`, leaving the state
untouched. -/
lemma processLine_term (env : AgentEnv) (st : AgentState) (t : String)
    (ht : isTermLine t = true) :
    processLine env st t = LineOutcome.finalAnswer (pyStrip t) st := by
  have h0 := termLine_not_empty t ht
  have hc := termLine_not_call t ht
  have hfa : pyStartsWith (pyStrip t) "FINAL_ANSWER:" = true := ht
  simp [processLine, h0, hc, hfa]

/-- `dispatchedCalls` distributes over `cons`. -/
lemma dispatchedCalls_cons (env : AgentEnv) (l : String) (ls : List String) :
    dispatchedCalls env (l :: ls) =
      (dispatchLine env l).toList ++ dispatchedCalls env ls := by
  cases h : dispatchLine env l <;> simp [dispatchedCalls, List.filterMap_cons, h]

/-- Document-order dispatch up to the first termination line: all
invocation lines before it are dispatched in order, the `return` fires at
the termination line, and the lines after it are never examined. -/
lemma processLines_order (env : AgentEnv) :
    ∀ (pre : List String) (st : AgentState) (t : String) (post : List String),
      (∀ l ∈ pre, isTermLine l = false) →
      (∀ l ∈ pre, isCallLine l = true →
        (env.jsonParse (afterFirstColon (pyStrip l))).isSome = true) →
      isTermLine t = true →
      ∃ st', processLines env st (pre ++ t :: post) =
          LineOutcome.finalAnswer (pyStrip t) st' ∧
        st'.executed = st.executed ++ dispatchedCalls env pre := by
  intro pre
  induction pre with
  | nil =>
    intro st t post _ _ ht
    refine ⟨st, ?_, by simp [dispatchedCalls]⟩
    simp [processLines, processLine_term env st t ht]
  | cons l pre ih =>
    intro st t post hpre hparse ht
    obtain ⟨st1, hl, hex⟩ := processLine_nonterm env st l
      (hpre l (List.mem_cons_self l pre))
      (hparse l (List.mem_cons_self l pre))
    obtain ⟨st', hrun, hex'⟩ := ih st1 t post
      (fun x hx => hpre x (List.mem_cons_of_mem l hx))
      (fun x hx => hparse x (List.mem_cons_of_mem l hx)) ht
    refine ⟨st', ?_, ?_⟩
    · simpa [processLines, hl] using hrun
    · rw [hex', hex, dispatchedCalls_cons, List.append_assoc]

/-- Rational lower bound on `Real.exp n`. -/
lemma exp_pow_lb (n : ℕ) (hn : n ≠ 0) : (2.7182818283 : ℝ) ^ n < Real.exp n := by
  have h : (2.7182818283 : ℝ) ^ n < Real.exp 1 ^ n :=
    pow_lt_pow_left₀ Real.exp_one_gt_d9 (by norm_num) hn
  rwa [Real.exp_one_pow] at h

/-- Rational upper bound on `Real.exp n`. -/
lemma exp_pow_ub (n : ℕ) (hn : n ≠ 0) : Real.exp n < (2.7182818286 : ℝ) ^ n := by
  have h : Real.exp 1 ^ n < (2.7182818286 : ℝ) ^ n :=
    pow_lt_pow_left₀ Real.exp_one_lt_d9 (Real.exp_pos 1).le hn
  rwa [Real.exp_one_pow] at h

/-- Lower bound for the scenario-1 sum. -/
lemma expSum_lb : (6.3e28 : ℝ) < Real.exp 65 + Real.exp 66 := by
  have h1 := exp_pow_lb 65 (by norm_num)
  have h2 := exp_pow_lb 66 (by norm_num)
  rw [Nat.cast_ofNat] at h1 h2
  have h3 : (6.3e28 : ℝ) < (2.7182818283 : ℝ) ^ (65 : ℕ) + (2.7182818283 : ℝ) ^ (66 : ℕ) := by
    norm_num
  linarith

/-- Upper bound for the scenario-1 sum. -/
lemma expSum_ub : Real.exp 65 + Real.exp 66 < (6.32e28 : ℝ) := by
  have h1 := exp_pow_ub 65 (by norm_num)
  have h2 := exp_pow_ub 66 (by norm_num)
  rw [Nat.cast_ofNat] at h1 h2
  have h3 : (2.7182818286 : ℝ) ^ (65 : ℕ) + (2.7182818286 : ℝ) ^ (66 : ℕ) < (6.32e28 : ℝ) := by
    norm_num
  linarith

/-! ## Claim theorems -/

/-- Claim C1, counterexample: when the planner response carries the
termination line first and the invocation line second, the loop honors the
termination line immediately — the invocation line, although it would
dispatch the registered tool `draw_rectangle` (as `dispatchedCalls`
witnesses), is never executed and no record is appended.  This refutes the
claim that all invocation lines of a response are executed, in any relative
order, before the termination line is honored. -/
theorem c1_invocation_order_counterexample :
    (runLoop envRect respTermFirst).result =
      LoopResult.finalAnswer "FINAL_ANSWER: done" ∧
    (runLoop envRect respTermFirst).executed = [] ∧
    (runLoop envRect respTermFirst).history = [] ∧
    dispatchedCalls envRect (splitLines (pyStrip termFirstText)) = [rectFi] := by
  decide

/-- Claim C1, amended: for a response laid out as invocation (and other
non-termination) lines followed by a termination line, all invocation lines
that precede the termination line are executed first, in document order,
before the termination line is honored; lines after the termination line
(an arbitrary `post`) are never executed.  The decode hypothesis excludes
the malformed-payload paths (claim C2). -/
theorem c1_invocation_order_amended (env : AgentEnv) (st : AgentState)
    (pre : List String) (t : String) (post : List String)
    (hpre : ∀ l ∈ pre, isTermLine l = false)
    (hparse : ∀ l ∈ pre, isCallLine l = true →
      (env.jsonParse (afterFirstColon (pyStrip l))).isSome = true)
    (ht : isTermLine t = true) :
    ∃ st', processLines env st (pre ++ t :: post) =
        LineOutcome.finalAnswer (pyStrip t) st' ∧
      st'.executed = st.executed ++ dispatchedCalls env pre :=
  processLines_order env pre st t post hpre hparse ht

/-- Claim C1, witness: the amended theorem applied to the scenario-2
response (one invocation line, then the termination line). -/
theorem c1_invocation_order_witness :
    (∀ l ∈ [rectCallLine], isTermLine l = false) ∧
    (∀ l ∈ [rectCallLine], isCallLine l = true →
      (envRect.jsonParse (afterFirstColon (pyStrip l))).isSome = true) ∧
    isTermLine "FINAL_ANSWER: done" = true ∧
    ∃ st', processLines envRect initAgentState
        ([rectCallLine] ++ "FINAL_ANSWER: done" :: []) =
        LineOutcome.finalAnswer (pyStrip "FINAL_ANSWER: done") st' ∧
      st'.executed = initAgentState.executed ++ dispatchedCalls envRect [rectCallLine] :=
  ⟨by decide, by decide, by decide,
    c1_invocation_order_amended envRect initAgentState [rectCallLine]
      "FINAL_ANSWER: done" [] (by decide) (by decide) (by decide)⟩

/-- Claim C2, code bug: a `FUNCTION_CALL` line with a malformed JSON
payload is logged (line 331) but not skipped — execution falls through to
line 333, which reads `function_info_json`.  First conjunct: when no
earlier line decoded, this raises `NameError`, the round-level handler
catches it and `break`s, and the loop ends after round 0 with no further
rounds — the malformed line is fatal, not recovered.  Second conjunct: when
an earlier line did decode, the stale `function_info_json` silently
re-dispatches the previous call (here `draw_rectangle` runs twice). -/
theorem c2_malformed_json_fatal :
    runLoop envNoParse respMalformed =
      ⟨LoopResult.roundError nameErrorMsg, [], [], [0], 0⟩ ∧
    (processLines envRect initAgentState (splitLines staleText)).state.executed =
      [rectFi, rectFi] := by
  decide

/-- Claim C3, counterexample: the non-empty input `"˪"` (U+02EA, code
point 746 ≥ 710) makes `math.exp(ord(c))` raise `OverflowError`; the
`except` handler (lines 417-421) returns the error string, which is not a
success result — no sum and no breakdown are reported.  This refutes the
claim's universal "for every non-empty input string". -/
theorem c3_ascii_exp_sum_counterexample :
    ("˪" : String) ≠ "" ∧
    (PaintTools.calculate_ascii_exp_sum ⟨false, false, none⟩ "˪").2 =
      TransformResult.error overflowErrorMsg ∧
    (∀ t d, TransformResult.error overflowErrorMsg ≠
      TransformResult.success t d) := by
  refine ⟨by decide, ?_, ?_⟩
  · have h1 : ("˪" : String) ≠ "" := by decide
    have h2 : hasOverflowCode "˪" = true := by decide
    simp [PaintTools.calculate_ascii_exp_sum, h1, h2]
  · intro t d h
    exact TransformResult.noConfusion h

/-- Claim C3, amended: for every non-empty input all of whose code points
are below the `math.exp` overflow threshold (710), the arithmetic
transform reports the sum over all characters of `e^(ord c)` together with
the per-character breakdown `(character, code, exponential)`; a non-empty
input containing a code point at or above the threshold yields the
documented overflow error string instead.  For input `"AB"` the reported
sum is `e^65 + e^66`, which lies between `6.3e28` and `6.32e28` and within
`1.2e26` (0.2 percent) of the spec's quoted `6.311e28`. -/
theorem c3_ascii_exp_sum_reports (st : PaintState) (s : String) (h : s ≠ "")
    (hov : ∀ c ∈ s.data, c.toNat < expOverflowThreshold) :
    (PaintTools.calculate_ascii_exp_sum st s).2 =
      TransformResult.success
        ((s.data.map (fun c => Real.exp (c.toNat : ℝ))).sum)
        (s.data.map (fun c => (c, c.toNat, Real.exp (c.toNat : ℝ)))) ∧
    (∀ s' : String, s' ≠ "" → (∃ c ∈ s'.data, expOverflowThreshold ≤ c.toNat) →
      (PaintTools.calculate_ascii_exp_sum st s').2 =
        TransformResult.error overflowErrorMsg) ∧
    (PaintTools.calculate_ascii_exp_sum st "AB").2 =
      TransformResult.success (Real.exp 65 + Real.exp 66)
        [('A', 65, Real.exp 65), ('B', 66, Real.exp 66)] ∧
    (6.3e28 : ℝ) < Real.exp 65 + Real.exp 66 ∧
    Real.exp 65 + Real.exp 66 < (6.32e28 : ℝ) ∧
    |Real.exp 65 + Real.exp 66 - 6.311e28| < (1.2e26 : ℝ) := by
  have hno : hasOverflowCode s = false := by
    simp only [hasOverflowCode, List.any_eq_false, decide_eq_true_eq]
    intro c hc
    exact not_le.mpr (hov c hc)
  refine ⟨?_, ?_, ?_, expSum_lb, expSum_ub, ?_⟩
  · simp only [PaintTools.calculate_ascii_exp_sum, if_neg h, hno,
      Bool.false_eq_true, if_false]
    rw [List.map_map]
    rfl
  · intro s' h' hov'
    have hyes : hasOverflowCode s' = true := by
      simp only [hasOverflowCode, List.any_eq_true, decide_eq_true_eq]
      exact hov'
    simp [PaintTools.calculate_ascii_exp_sum, h', hyes]
  · have hd : ("AB" : String).data = ['A', 'B'] := rfl
    have hA : ('A' : Char).toNat = 65 := rfl
    have hB : ('B' : Char).toNat = 66 := rfl
    have hABno : hasOverflowCode "AB" = false := by decide
    simp [PaintTools.calculate_ascii_exp_sum, hd, hA, hB, hABno]
  · have h1 := expSum_lb
    have h2 := expSum_ub
    rw [abs_sub_lt_iff]
    constructor <;>
      linarith [show (6.311e28 : ℝ) - 6.3e28 < 1.2e26 by norm_num,
        show (6.32e28 : ℝ) - 6.311e28 < 1.2e26 by norm_num]

/-- Claim C3, witness: the amended theorem applied to the non-empty,
non-overflowing input `"AB"`. -/
theorem c3_ascii_exp_sum_witness :
    ("AB" : String) ≠ "" ∧
    (∀ c ∈ ("AB" : String).data, c.toNat < expOverflowThreshold) ∧
    ((PaintTools.calculate_ascii_exp_sum ⟨false, false, none⟩ "AB").2 =
      TransformResult.success
        ((("AB" : String).data.map (fun c => Real.exp (c.toNat : ℝ))).sum)
        (("AB" : String).data.map (fun c => (c, c.toNat, Real.exp (c.toNat : ℝ)))) ∧
    (∀ s' : String, s' ≠ "" → (∃ c ∈ s'.data, expOverflowThreshold ≤ c.toNat) →
      (PaintTools.calculate_ascii_exp_sum ⟨false, false, none⟩ s').2 =
        TransformResult.error overflowErrorMsg) ∧
    (PaintTools.calculate_ascii_exp_sum ⟨false, false, none⟩ "AB").2 =
      TransformResult.success (Real.exp 65 + Real.exp 66)
        [('A', 65, Real.exp 65), ('B', 66, Real.exp 66)] ∧
    (6.3e28 : ℝ) < Real.exp 65 + Real.exp 66 ∧
    Real.exp 65 + Real.exp 66 < (6.32e28 : ℝ) ∧
    |Real.exp 65 + Real.exp 66 - 6.311e28| < (1.2e26 : ℝ)) :=
  ⟨by decide, by decide,
    c3_ascii_exp_sum_reports ⟨false, false, none⟩ "AB" (by decide) (by decide)⟩

/-- Claim C4: in every run of the loop, the round index is bounded by
`maxIterations`, the started rounds carry the consecutive indices
`0, 1, 2, ...` (it is monotone and increases by exactly one per round), the
final `iteration` counts the completed rounds (all started rounds, or all
but the one that ended the loop), and the loop ends in the
maximum-iterations abort exactly when `iteration` reaches `maxIterations`
(which excludes a prior honored termination line or round error, since
those end the loop with `iteration < maxIterations`). -/
theorem c4_round_index_invariant (env : AgentEnv)
    (responses : ℕ → PlannerResponse) :
    (runLoop env responses).finalIteration ≤ maxIterations ∧
    (runLoop env responses).roundIndices =
      List.range (runLoop env responses).roundIndices.length ∧
    ((runLoop env responses).finalIteration + 1 =
        (runLoop env responses).roundIndices.length ∨
      (runLoop env responses).finalIteration =
        (runLoop env responses).roundIndices.length) ∧
    ((runLoop env responses).result = LoopResult.maxIterations ↔
      (runLoop env responses).finalIteration = maxIterations) := by
  obtain ⟨k, hfin, hcase⟩ :=
    runLoopAux_spec env responses maxIterations initAgentState []
  have hrl : runLoop env responses =
      runLoopAux env responses maxIterations initAgentState [] := rfl
  have hi : initAgentState.iteration = 0 := rfl
  rw [hi] at hfin hcase
  rw [hrl]
  rw [Nat.zero_add] at hfin
  rcases hcase with ⟨h1, h2, h3⟩ | ⟨h1, h2, h3⟩
  · refine ⟨by omega, ?_, ?_, ?_⟩
    · rw [h3]
      simp [List.range_eq_range']
    · right
      rw [h3, hfin]
      simp [h2]
    · constructor
      · intro _
        omega
      · intro _
        exact h1
  · refine ⟨by omega, ?_, ?_, ?_⟩
    · rw [h3]
      simp [List.range_eq_range']
    · left
      rw [h3, hfin]
      simp
    · constructor
      · intro hmax
        exact absurd hmax h1
      · intro hfi
        rw [hfin] at hfi
        omega

/-- Claim C5: for the scenario-2 response (the `draw_rectangle` invocation
line then `FINAL_ANSWER: done`), exactly one `ExecutionRecord` is appended
to history, the loop terminates at the termination line whose message is
`done`, and only round 0 ever starts — round 2 is never reached. -/
theorem c5_scenario2_single_record :
    runLoop envRect respScenario2 =
      ⟨LoopResult.finalAnswer "FINAL_ANSWER: done",
        [⟨0, "draw_rectangle",
          RecordOutcome.returned "Rectangle drawn from (600,354) to (1000,454)"⟩],
        [rectFi], [0], 0⟩ ∧
    finalMessage "FINAL_ANSWER: done" = "done" := by
  decide

/-- Claim C6, counterexample: a response whose invocation names an
unregistered tool leaves the loop running through all ten rounds with the
history still empty — no `ParseError`-class record is ever appended.  This
refutes the claim that a record is appended for the skipped invocation
(the no-crash half of the claim does hold: the loop continues). -/
theorem c6_unregistered_tool_counterexample :
    runLoop envUnknown respUnknown =
      ⟨LoopResult.maxIterations, [], [], List.range 10, 10⟩ := by
  decide

/-- Claim C6, amended: an invocation line whose payload decodes to an
unregistered tool name is silently skipped — the `for` loop continues with
history, call count and executed trace unchanged (only the Python local
`function_info_json` retains the decoded value); nothing is appended and
nothing is raised. -/
theorem c6_unregistered_tool_amended (env : AgentEnv) (st : AgentState)
    (l : String) (fi : FunctionInfo)
    (h0 : ¬ (pyStrip l = ""))
    (hc : pyStartsWith (pyStrip l) "FUNCTION_CALL:" = true)
    (hp : env.jsonParse (afterFirstColon (pyStrip l)) = some fi)
    (hreg : fi.name ∉ env.toolNames) :
    processLine env st l =
      LineOutcome.continued
        ⟨st.iteration, st.callCount, st.history, st.executed, some fi⟩ := by
  simp [processLine, h0, hc, hp, runCall, hreg]

/-- Claim C6, witness: the amended theorem applied to the concrete
unregistered-tool invocation line. -/
theorem c6_unregistered_tool_witness :
    (¬ (pyStrip unknownCallText = "")) ∧
    pyStartsWith (pyStrip unknownCallText) "FUNCTION_CALL:" = true ∧
    envUnknown.jsonParse (afterFirstColon (pyStrip unknownCallText)) =
      some unknownFi ∧
    unknownFi.name ∉ envUnknown.toolNames ∧
    processLine envUnknown initAgentState unknownCallText =
      LineOutcome.continued
        ⟨initAgentState.iteration, initAgentState.callCount,
          initAgentState.history, initAgentState.executed, some unknownFi⟩ :=
  ⟨by decide, by decide, by decide, by decide,
    c6_unregistered_tool_amended envUnknown initAgentState unknownCallText
      unknownFi (by decide) (by decide) (by decide) (by decide)⟩

/-- Claim C7: on the empty string the arithmetic transform returns the
empty-input sentinel (line 397), which is distinct from every numeric
result — in particular from a result with sum zero. -/
theorem c7_empty_input_sentinel (st : PaintState) :
    (PaintTools.calculate_ascii_exp_sum st "").2 = TransformResult.emptyInput ∧
    ∀ d, TransformResult.emptyInput ≠ TransformResult.success 0 d := by
  constructor
  · simp [PaintTools.calculate_ascii_exp_sum]
  · intro d h
    exact TransformResult.noConfusion h

/-- Claim C8, counterexample: a planner timeout on round 1 ends the loop
with zero `ExecutionRecord`s and a transport-class round error, but the
process exit code is `0`, not non-zero — the exception is caught by the
round-level handler (line 377), `main` returns normally, and `sys.exit(1)`
(line 408) never runs.  This refutes the non-zero exit-code part of the
claim. -/
theorem c8_timeout_abort_counterexample :
    runLoop envNoParse respTimeout =
      ⟨LoopResult.roundError "Request timed out", [], [], [0], 0⟩ ∧
    processExitCode (runLoop envNoParse respTimeout).result = 0 := by
  decide

/-- Claim C8, amended: if the planner call raises on round 1, the loop
aborts immediately — zero records, zero dispatches, only round 0 started,
and a `roundError` (transport-class) termination — but the process still
exits with code 0, because the exception is handled inside `main`. -/
theorem c8_timeout_abort_amended (env : AgentEnv)
    (responses : ℕ → PlannerResponse) (e : String)
    (h : responses 0 = PlannerResponse.failure e) :
    runLoop env responses = ⟨LoopResult.roundError e, [], [], [0], 0⟩ ∧
    processExitCode (runLoop env responses).result = 0 := by
  have hrl : runLoop env responses =
      runLoopAux env responses (9 + 1) initAgentState [] := rfl
  refine ⟨?_, rfl⟩
  rw [hrl]
  simp [runLoopAux, initAgentState, h]

/-- Claim C8, witness: the amended theorem applied to a planner that times
out on round 1. -/
theorem c8_timeout_abort_witness :
    respTimeout 0 = PlannerResponse.failure "Request timed out" ∧
    (runLoop envNoParse respTimeout =
      ⟨LoopResult.roundError "Request timed out", [], [], [0], 0⟩ ∧
    processExitCode (runLoop envNoParse respTimeout).result = 0) :=
  ⟨rfl, c8_timeout_abort_amended envNoParse respTimeout "Request timed out" rfl⟩

/-- Claim C9: the arithmetic transform is deterministic — it reads no
object state, so two invocations with the same non-empty input, from any
two object states (in particular consecutive invocations on the same
object), report the same sum and breakdown; and it leaves the object state
unchanged. -/
theorem c9_transform_deterministic (st1 st2 : PaintState) (s : String)
    (h : s ≠ "") :
    (PaintTools.calculate_ascii_exp_sum st1 s).2 =
      (PaintTools.calculate_ascii_exp_sum st2 s).2 ∧
    (PaintTools.calculate_ascii_exp_sum st1 s).1 = st1 := by
  by_cases hov : hasOverflowCode s = true <;>
    constructor <;> simp [PaintTools.calculate_ascii_exp_sum, h, hov]

/-- Claim C9, witness: determinism at input `"AB"` across two different
object states. -/
theorem c9_transform_deterministic_witness :
    ("AB" : String) ≠ "" ∧
    ((PaintTools.calculate_ascii_exp_sum ⟨false, false, none⟩ "AB").2 =
      (PaintTools.calculate_ascii_exp_sum ⟨true, true, some (1, 2, 3, 4)⟩ "AB").2 ∧
    (PaintTools.calculate_ascii_exp_sum ⟨false, false, none⟩ "AB").1 =
      ⟨false, false, none⟩) :=
  ⟨by decide, c9_transform_deterministic ⟨false, false, none⟩
    ⟨true, true, some (1, 2, 3, 4)⟩ "AB" (by decide)⟩

/-- Claim C10: in real (non-simulation) mode, each of `draw_rectangle`,
`add_text_in_paint` and `save_paint`, invoked while `paint_app` is still
`None`, performs no side effect (no GUI effect, state unchanged) and
returns the failure text `"Paint is not open. Please call open_paint
first."`. -/
theorem c10_paint_not_open_guard (st : PaintState)
    (hsim : st.simulationMode = false) (hopen : st.paintApp = false)
    (x1 y1 x2 y2 : Int) (t f : String) :
    PaintTools.draw_rectangle st x1 y1 x2 y2 = (st, [], notOpenMsg) ∧
    PaintTools.add_text_in_paint st t = (st, [], notOpenMsg) ∧
    PaintTools.save_paint st f = (st, [], notOpenMsg) := by
  refine ⟨?_, ?_, ?_⟩ <;>
    simp [PaintTools.draw_rectangle, PaintTools.add_text_in_paint,
      PaintTools.save_paint, hsim, hopen]

/-- Claim C10, witness: the guard theorem applied to a fresh real-mode
state and the scenario arguments. -/
theorem c10_paint_not_open_guard_witness :
    (PaintState.mk false false none).simulationMode = false ∧
    (PaintState.mk false false none).paintApp = false ∧
    (PaintTools.draw_rectangle ⟨false, false, none⟩ 600 354 1000 454 =
      (⟨false, false, none⟩, [], notOpenMsg) ∧
    PaintTools.add_text_in_paint ⟨false, false, none⟩ "6.302466e28" =
      (⟨false, false, none⟩, [], notOpenMsg) ∧
    PaintTools.save_paint ⟨false, false, none⟩ "ascii_result_AB.png" =
      (⟨false, false, none⟩, [], notOpenMsg)) :=
  ⟨rfl, rfl, c10_paint_not_open_guard ⟨false, false, none⟩ rfl rfl
    600 354 1000 454 "6.302466e28" "ascii_result_AB.png"⟩
